import Mathlib

/-!
Shallow embedding of `scripts/https_server.py`: a 28-line Python script that
starts a TLS-wrapped static file server.  The script's startup is a straight
sequence of standard-library calls:

  line 8-9 : serve_dir = sys.argv[1] if len(sys.argv) > 1 else '.'
             serve_dir = os.path.abspath(serve_dir)
  line 12  : os.chdir(serve_dir)
  line 14  : server_address = ('0.0.0.0', 8443)
  line 15  : httpd = http.server.HTTPServer(server_address, SimpleHTTPRequestHandler)
             -- the HTTPServer constructor binds (and listens on) the socket
  line 18  : script_dir = os.path.dirname(os.path.abspath(__file__))
  line 19  : cert_file = os.path.join(script_dir, 'cert.pem')
  line 20  : key_file = os.path.join(script_dir, 'key.pem')
  line 22  : context = ssl.SSLContext(ssl.PROTOCOL_TLS_SERVER)
  line 23  : context.load_cert_chain(cert_file, key_file)
  line 24  : httpd.socket = context.wrap_socket(httpd.socket, server_side=True)
  line 26-27: print(f"Serving HTTPS from: {serve_dir}")
              print(f"Server running at https://{server_address[0]}:{server_address[1]}/")
  line 28  : httpd.serve_forever()

We model POSIX paths as an absolute flag plus a list of components, the
fallible standard-library calls (`os.chdir`, the bind in `HTTPServer.__init__`,
`load_cert_chain`, `wrap_socket`) as environment-supplied success predicates,
and a program run as the ordered trace of steps completed before the first
uncaught exception (Python has no try/except anywhere in this script, so the
first raising call terminates the process).
-/

namespace HttpsServer

/-- A POSIX path: whether it is absolute, and its `/`-separated components. -/
structure PyPath where
  isAbs : Bool
  parts : List String
deriving DecidableEq

/-- One folding step of `posixpath.normpath`: drop empty and `.` components,
let `..` cancel the previous real component (at the root of an absolute path a
`..` is discarded; in a relative path leading `..`s are kept). -/
def normAcc (abs : Bool) (acc : List String) (c : String) : List String :=
  if c == "" || c == "." then acc
  else if c == ".." then
    if acc.isEmpty then (if abs then [] else [".."])
    else if acc.getLast? == some ".." then acc ++ [".."]
    else acc.dropLast
  else acc ++ [c]

/-- `posixpath.normpath`. -/
def normpath (p : PyPath) : PyPath :=
  ⟨p.isAbs, p.parts.foldl (normAcc p.isAbs) []⟩

/-- `os.path.join a b` (POSIX): an absolute second argument discards the
first, otherwise the components are concatenated. -/
def joinPath (a b : PyPath) : PyPath :=
  if b.isAbs then b else ⟨a.isAbs, a.parts ++ b.parts⟩

/-- `os.path.abspath p` evaluated with current working directory `cwd`:
`normpath(join(cwd, p))`. -/
def abspath (cwd p : PyPath) : PyPath :=
  normpath (joinPath cwd p)

/-- `os.path.dirname`: drop the last component. -/
def dirname (p : PyPath) : PyPath :=
  ⟨p.isAbs, p.parts.dropLast⟩

/-- Render a path the way Python prints it. -/
def pathToString (p : PyPath) : String :=
  (if p.isAbs then "/" else "") ++ String.intercalate "/" p.parts

/-- The path literal `'.'` (the default serve directory, line 8). -/
def dot : PyPath := ⟨false, ["."]⟩

/-- The inputs of one invocation.  `argv` are the command-line arguments
(element 0 is the script name); `cwd` is the caller's working directory;
`scriptFile` is Python's `__file__` for the script (an absolute path on every
supported interpreter); the remaining fields say which fallible
standard-library calls succeed: `chdirOk` for `os.chdir`, `bindOk` for the
socket bind inside `http.server.HTTPServer(...)`, `loadCertOk` for
`ssl.SSLContext.load_cert_chain`, `wrapOk` for `ssl.SSLContext.wrap_socket`. -/
structure Env where
  argv : List PyPath
  cwd : PyPath
  scriptFile : PyPath
  chdirOk : PyPath → Bool
  bindOk : Bool
  loadCertOk : PyPath → PyPath → Bool
  wrapOk : Bool

/-- The observable startup steps, in source order. -/
inductive Step where
  | chdir (d : PyPath)
  | bind (host : String) (port : Nat)
  | sslContext
  | loadCertChain (cert key : PyPath)
  | wrapSocket
  | printLine (s : String)
  | serveForever
deriving DecidableEq

/-- Outcome of running the script up to `serve_forever`: the trace of steps
completed in order, and the step whose exception killed the process (`none`
when startup succeeded and the serve loop was entered). -/
structure RunResult where
  trace : List Step
  failed : Option Step
deriving DecidableEq

/-- Line 8: `sys.argv[1] if len(sys.argv) > 1 else '.'` — `argv` has a second
element exactly when `len(sys.argv) > 1`, and that element is `argv[1]`. -/
def serveDirArg (argv : List PyPath) : PyPath :=
  match argv with
  | _ :: d :: _ => d
  | _ => dot

/-- Lines 8-9: the resolved Serve Root. -/
def serve_dir (env : Env) : PyPath :=
  abspath env.cwd (serveDirArg env.argv)

/-- Line 14: `server_address = ('0.0.0.0', 8443)`. -/
def server_address : String × Nat := ("0.0.0.0", 8443)

/-- Line 18: `script_dir = os.path.dirname(os.path.abspath(__file__))`.
This runs after `os.chdir(serve_dir)`, so the working directory used by
`abspath` is the Serve Root. -/
def script_dir (env : Env) : PyPath :=
  dirname (abspath (serve_dir env) env.scriptFile)

/-- Line 19: `cert_file = os.path.join(script_dir, 'cert.pem')`. -/
def cert_file (env : Env) : PyPath :=
  joinPath (script_dir env) ⟨false, ["cert.pem"]⟩

/-- Line 20: `key_file = os.path.join(script_dir, 'key.pem')`. -/
def key_file (env : Env) : PyPath :=
  joinPath (script_dir env) ⟨false, ["key.pem"]⟩

/-- Line 26: `f"Serving HTTPS from: {serve_dir}"`. -/
def startupLine1 (env : Env) : String :=
  "Serving HTTPS from: " ++ pathToString (serve_dir env)

/-- Line 27: `f"Server running at https://{server_address[0]}:{server_address[1]}/"`. -/
def startupLine2 : String :=
  "Server running at https://" ++ server_address.1 ++ ":" ++
    toString server_address.2 ++ "/"

/-- The whole script, from process start up to entering `serve_forever`,
in source order.  There is no try/except anywhere, so the first failing call
ends the run with that step recorded in `failed` and nothing after it in the
trace. -/
def run (env : Env) : RunResult :=
  let sd := serve_dir env
  if env.chdirOk sd then
    if env.bindOk then
      if env.loadCertOk (cert_file env) (key_file env) then
        if env.wrapOk then
          ⟨[Step.chdir sd, Step.bind server_address.1 server_address.2,
            Step.sslContext, Step.loadCertChain (cert_file env) (key_file env),
            Step.wrapSocket, Step.printLine (startupLine1 env),
            Step.printLine startupLine2, Step.serveForever], none⟩
        else
          ⟨[Step.chdir sd, Step.bind server_address.1 server_address.2,
            Step.sslContext, Step.loadCertChain (cert_file env) (key_file env)],
           some Step.wrapSocket⟩
      else
        ⟨[Step.chdir sd, Step.bind server_address.1 server_address.2,
          Step.sslContext],
         some (Step.loadCertChain (cert_file env) (key_file env))⟩
    else
      ⟨[Step.chdir sd], some (Step.bind server_address.1 server_address.2)⟩
  else
    ⟨[], some (Step.chdir sd)⟩

/-- The lines the run writes to standard output, in order. -/
def stdoutOf (r : RunResult) : List String :=
  r.trace.filterMap fun s =>
    match s with
    | Step.printLine l => some l
    | _ => none

/-- Process exit status: an uncaught Python exception terminates the
interpreter with exit code 1; `none` means the process is still running. -/
def exitCode (r : RunResult) : Option Nat :=
  r.failed.map fun _ => 1

/-- State of the `serve_forever` loop (line 28): alternately accepting a
connection and handling it, counting connections served.  `terminated` is the
state reached only by an external signal or kill; no transition of the loop
itself produces it. -/
inductive LoopState where
  | accepting (served : Nat)
  | handling (served : Nat)
  | terminated
deriving DecidableEq

/-- One transition of `serve_forever`: accept, handle, accept the next.
`BaseServer.serve_forever` is `while True: handle one request`; it has no
return statement and no break, so no transition leaves the loop. -/
def serveStep : LoopState → LoopState
  | LoopState.accepting n => LoopState.handling n
  | LoopState.handling n => LoopState.accepting (n + 1)
  | LoopState.terminated => LoopState.terminated

/-- Whether the process is still alive in a loop state. -/
def isLive : LoopState → Bool
  | LoopState.terminated => false
  | _ => true

/-- Output streams of the process. -/
inductive OutStream where
  | stdout
  | stderr
deriving DecidableEq

/-- Modelled from the spec: per-request logging is performed by Python's
`http.server` machinery (`BaseHTTPRequestHandler.log_message`), which is
standard-library code, not part of this repository; it writes to the error
stream, never to standard output ("no structured logging, no per-request
logging" on stdout). -/
def perRequestLogStream : OutStream := OutStream.stderr

/-- Modelled from the spec: request-path resolution is delegated to Python's
`http.server.SimpleHTTPRequestHandler`, standard-library code not part of this
repository.  The spec: "resolve the requested path against the root, reject
path traversal outside the root".  Mirrors the stdlib `translate_path`: the
URL path (always absolute) is normalised, then every component that is empty,
`.` or `..` is discarded, and the survivors are appended under the serve
root. -/
def translate_path (root : PyPath) (urlParts : List String) : PyPath :=
  let norm := (normpath ⟨true, urlParts⟩).parts
  let words := norm.filter fun w => !(w == "" || w == "." || w == "..")
  ⟨root.isAbs, root.parts ++ words⟩

/-! ### Concrete environments used by witnesses and counterexamples -/

/-- The installed location of the script, `__file__`. -/
def demoScript : PyPath := ⟨true, ["opt", "gfx", "scripts", "https_server.py"]⟩

/-- An invocation where every startup call succeeds. -/
def demoEnvOk : Env :=
  ⟨[demoScript, ⟨true, ["srv", "www"]⟩], ⟨true, ["home", "user"]⟩, demoScript,
   fun _ => true, true, fun _ _ => true, true⟩

/-- An invocation where the certificate pair fails to load
(`load_cert_chain` raises) and everything else succeeds. -/
def envBadCert : Env :=
  ⟨[demoScript, ⟨true, ["srv", "www"]⟩], ⟨true, ["home", "user"]⟩, demoScript,
   fun _ => true, true, fun _ _ => false, true⟩

/-- An invocation whose serve-directory argument cannot be entered
(`os.chdir` raises). -/
def envBadDir : Env :=
  ⟨[demoScript, ⟨true, ["no", "such"]⟩], ⟨true, ["home", "user"]⟩, demoScript,
   fun _ => false, true, fun _ _ => true, true⟩

/-- An invocation where binding port 8443 fails. -/
def envBadBind : Env :=
  ⟨[demoScript, ⟨true, ["srv", "www"]⟩], ⟨true, ["home", "user"]⟩, demoScript,
   fun _ => true, false, fun _ _ => true, true⟩

/-- Same invocation as `demoEnvOk` except for two junk trailing command-line
arguments. -/
def demoEnvOkExtra : Env :=
  ⟨[demoScript, ⟨true, ["srv", "www"]⟩, ⟨false, ["junk"]⟩, dot],
   ⟨true, ["home", "user"]⟩, demoScript,
   fun _ => true, true, fun _ _ => true, true⟩

/-- Same as `demoEnvOk` but with a different caller working directory and
extra trailing command-line arguments. -/
def demoEnvOk2 : Env :=
  ⟨[demoScript, ⟨true, ["srv", "www"]⟩, ⟨false, ["junk"]⟩, dot],
   ⟨true, ["tmp"]⟩, demoScript,
   fun _ => true, true, fun _ _ => true, true⟩

/-! ### Claim C1 -/

/-- C1 counterexample: the claim asserts that constructing the TLS context and
loading the certificate always precedes binding the listening socket, so that
no execution reaches a state with the port bound but the certificate not
loaded.  On this code the opposite order holds: in the concrete invocation
`envBadCert` (everything fine except that `load_cert_chain` fails) the run has
already completed the bind of 0.0.0.0:8443 when it dies at `load_cert_chain`,
so the port is bound while the certificate was never successfully loaded. -/
theorem claim1_counterexample :
    Step.bind "0.0.0.0" 8443 ∈ (run envBadCert).trace ∧
    (run envBadCert).failed =
      some (Step.loadCertChain (cert_file envBadCert) (key_file envBadCert)) ∧
    Step.wrapSocket ∉ (run envBadCert).trace := by
  decide

/-- C1 amended: if the TLS credential pair is missing or invalid
(`load_cert_chain` fails), the process dies before wrapping the socket in TLS,
before printing any status line, and before entering the serve loop — but the
listening socket has already been bound, because in the startup sequence the
bind inside `http.server.HTTPServer(...)` (line 15) precedes TLS-context
construction and certificate loading (lines 22-23). -/
theorem claim1_amended (env : Env)
    (hc : env.chdirOk (serve_dir env) = true)
    (hb : env.bindOk = true)
    (hl : env.loadCertOk (cert_file env) (key_file env) = false) :
    (run env).trace =
      [Step.chdir (serve_dir env), Step.bind "0.0.0.0" 8443, Step.sslContext] ∧
    (run env).failed =
      some (Step.loadCertChain (cert_file env) (key_file env)) ∧
    stdoutOf (run env) = [] ∧
    Step.wrapSocket ∉ (run env).trace ∧
    Step.serveForever ∉ (run env).trace := by
  simp [run, hc, hb, hl, stdoutOf, server_address]

/-- C1 witness: the amended statement instantiated at `envBadCert`. -/
theorem claim1_witness :
    (run envBadCert).trace =
      [Step.chdir (serve_dir envBadCert), Step.bind "0.0.0.0" 8443,
       Step.sslContext] ∧
    (run envBadCert).failed =
      some (Step.loadCertChain (cert_file envBadCert) (key_file envBadCert)) ∧
    stdoutOf (run envBadCert) = [] ∧
    Step.wrapSocket ∉ (run envBadCert).trace ∧
    Step.serveForever ∉ (run envBadCert).trace :=
  claim1_amended envBadCert (by decide) (by decide) (by decide)

/-! ### Claim C2 -/

/-- C2: for every invocation (with `__file__` absolute, as Python guarantees
for a directly run script), the certificate and key are read from the two
fixed filenames `cert.pem` and `key.pem` under the directory containing the
script itself, and the resolved credential paths are identical across any two
invocations of the same installed script — whatever their serve-directory
argument, remaining argv, working directory, or call outcomes. -/
theorem claim2_credential_paths (env env' : Env)
    (habs : env.scriptFile.isAbs = true)
    (hsame : env'.scriptFile = env.scriptFile) :
    cert_file env = joinPath (dirname (normpath env.scriptFile)) ⟨false, ["cert.pem"]⟩ ∧
    key_file env = joinPath (dirname (normpath env.scriptFile)) ⟨false, ["key.pem"]⟩ ∧
    cert_file env' = cert_file env ∧
    key_file env' = key_file env := by
  have hdir : ∀ e : Env, e.scriptFile = env.scriptFile →
      script_dir e = dirname (normpath env.scriptFile) := by
    intro e he
    simp [script_dir, abspath, joinPath, he, habs]
  have h1 := hdir env rfl
  have h2 := hdir env' hsame
  simp [cert_file, key_file, h1, h2]

/-- C2 witness: two invocations of the same script — different working
directories, different extra arguments — resolve the same credential paths. -/
theorem claim2_witness :
    cert_file demoEnvOk =
      joinPath (dirname (normpath demoEnvOk.scriptFile)) ⟨false, ["cert.pem"]⟩ ∧
    key_file demoEnvOk =
      joinPath (dirname (normpath demoEnvOk.scriptFile)) ⟨false, ["key.pem"]⟩ ∧
    cert_file demoEnvOk2 = cert_file demoEnvOk ∧
    key_file demoEnvOk2 = key_file demoEnvOk :=
  claim2_credential_paths demoEnvOk demoEnvOk2 (by decide) (by decide)

/-! ### Claim C3 -/

/-- C3: when the resolved serve directory cannot be entered, `os.chdir`
raises and nothing catches it: the run completes no step, writes nothing to
standard output, records the chdir as the fatal step, exits with a non-zero
code, and never reaches the serve loop — no retry, no fallback, no
partial-start state. -/
theorem claim3_bad_dir_fatal (env : Env)
    (h : env.chdirOk (serve_dir env) = false) :
    (run env).trace = [] ∧
    (run env).failed = some (Step.chdir (serve_dir env)) ∧
    stdoutOf (run env) = [] ∧
    exitCode (run env) = some 1 ∧
    Step.serveForever ∉ (run env).trace ∧
    Step.bind "0.0.0.0" 8443 ∉ (run env).trace := by
  simp [run, h, stdoutOf, exitCode]

/-- C3 witness: the statement instantiated at `envBadDir`. -/
theorem claim3_witness :
    (run envBadDir).trace = [] ∧
    (run envBadDir).failed = some (Step.chdir (serve_dir envBadDir)) ∧
    stdoutOf (run envBadDir) = [] ∧
    exitCode (run envBadDir) = some 1 ∧
    Step.serveForever ∉ (run envBadDir).trace ∧
    Step.bind "0.0.0.0" 8443 ∉ (run envBadDir).trace :=
  claim3_bad_dir_fatal envBadDir (by decide)

/-! ### Claim C5 -/

/-- C5: the listening address is the fixed constant pair
`('0.0.0.0', 8443)`, and in every invocation whatsoever any bind step
appearing in the run's trace binds exactly that host and port — no argument,
file, or environment field influences it. -/
theorem claim5_fixed_address :
    server_address = ("0.0.0.0", 8443) ∧
    ∀ (env : Env) (h : String) (p : Nat),
      Step.bind h p ∈ (run env).trace → h = "0.0.0.0" ∧ p = 8443 := by
  refine ⟨rfl, ?_⟩
  intro env h p hm
  simp only [run] at hm
  split_ifs at hm <;> simp [server_address] at hm <;> exact hm

/-- C5 witness: the constant, and the bind step of a concrete successful run. -/
theorem claim5_witness :
    server_address = ("0.0.0.0", 8443) ∧
    "0.0.0.0" = "0.0.0.0" ∧ (8443 : Nat) = 8443 :=
  ⟨claim5_fixed_address.1,
   claim5_fixed_address.2 demoEnvOk "0.0.0.0" 8443 (by decide)⟩

/-! ### Helper lemmas -/

/-- `os.path.abspath` against an absolute working directory always yields an
absolute path. -/
theorem abspath_isAbs (cwd p : PyPath) (h : cwd.isAbs = true) :
    (abspath cwd p).isAbs = true := by
  by_cases hp : p.isAbs = true <;> simp [abspath, normpath, joinPath, hp, h]

/-- `serveDirArg` only looks at the first two elements of `argv`. -/
theorem serveDirArg_take_two (a a' : List PyPath) (h : a.take 2 = a'.take 2) :
    serveDirArg a = serveDirArg a' := by
  cases a with
  | nil =>
    cases a' with
    | nil => rfl
    | cons y t => simp [List.take] at h
  | cons x s =>
    cases a' with
    | nil => simp [List.take] at h
    | cons y t =>
      cases s with
      | nil =>
        cases t with
        | nil => rfl
        | cons z u => simp [List.take] at h
      | cons z u =>
        cases t with
        | nil => simp [List.take] at h
        | cons w v =>
          simp [List.take] at h
          simp [serveDirArg, h.2]

/-! ### Claim C4 -/

/-- C4: the Serve Root is the first positional argument when present and the
literal path `.` otherwise, resolved through `os.path.abspath` against the
invoker's working directory (so relative arguments resolve against that
directory, and the result is always absolute), and the chdir that every
successful run performs first targets exactly this resolved path. -/
theorem claim4_serve_root (env : Env) (hcwd : env.cwd.isAbs = true) :
    (∀ a d rest, env.argv = a :: d :: rest → serve_dir env = abspath env.cwd d) ∧
    (env.argv.length ≤ 1 → serve_dir env = abspath env.cwd dot) ∧
    (serve_dir env).isAbs = true ∧
    ((run env).failed = none →
      (run env).trace.head? = some (Step.chdir (serve_dir env))) := by
  refine ⟨?_, ?_, abspath_isAbs _ _ hcwd, ?_⟩
  · intro a d rest hargv
    simp [serve_dir, serveDirArg, hargv]
  · intro hlen
    rcases ha : env.argv with _ | ⟨x, _ | ⟨y, t⟩⟩
    · simp [serve_dir, serveDirArg, ha]
    · simp [serve_dir, serveDirArg, ha]
    · rw [ha] at hlen
      simp [List.length_cons] at hlen
  · intro hnone
    simp only [run] at hnone ⊢
    split_ifs at hnone ⊢ <;> simp_all

/-- C4 witness: the statement instantiated at a concrete invocation with one
positional argument. -/
theorem claim4_witness :
    (∀ a d rest, demoEnvOk.argv = a :: d :: rest →
      serve_dir demoEnvOk = abspath demoEnvOk.cwd d) ∧
    (demoEnvOk.argv.length ≤ 1 → serve_dir demoEnvOk = abspath demoEnvOk.cwd dot) ∧
    (serve_dir demoEnvOk).isAbs = true ∧
    ((run demoEnvOk).failed = none →
      (run demoEnvOk).trace.head? = some (Step.chdir (serve_dir demoEnvOk))) :=
  claim4_serve_root demoEnvOk (by decide)

/-! ### Claim C6 -/

/-- C6: for every serve root and every requested URL path — including ones
with traversal sequences such as `/../../etc/passwd` — the path the handler
resolves to starts with the serve root's own components and continues only
with components that are not `..` (nor `.` nor empty), so it never denotes a
file outside the serve root. -/
theorem claim6_no_traversal_escape (root : PyPath) (url : List String) :
    (((translate_path root url).parts.take root.parts.length == root.parts) &&
     ((translate_path root url).parts.drop root.parts.length).all
       (fun w => !(w == "" || w == "." || w == ".."))) = true := by
  simp only [translate_path, List.take_left, List.drop_left, Bool.and_eq_true,
    beq_self_eq_true, true_and, List.all_eq_true]
  intro w hw
  exact (List.mem_filter.mp hw).2

/-! ### Claim C7 -/

/-- C7: every run that completes startup writes exactly two lines to standard
output: first the resolved serve directory, then the listening URL — and
request handling never writes to standard output (the handler's per-request
log goes to the error stream). -/
theorem claim7_startup_output (env : Env)
    (h : (run env).failed = none) :
    stdoutOf (run env) = [startupLine1 env, startupLine2] ∧
    startupLine1 env = "Serving HTTPS from: " ++ pathToString (serve_dir env) ∧
    startupLine2 = "Server running at https://0.0.0.0:8443/" ∧
    perRequestLogStream = OutStream.stderr := by
  refine ⟨?_, rfl, by decide, rfl⟩
  simp only [run, stdoutOf] at h ⊢
  split_ifs at h ⊢ <;> simp_all

/-- C7 witness: the statement instantiated at a concrete successful run. -/
theorem claim7_witness :
    stdoutOf (run demoEnvOk) = [startupLine1 demoEnvOk, startupLine2] ∧
    startupLine1 demoEnvOk =
      "Serving HTTPS from: " ++ pathToString (serve_dir demoEnvOk) ∧
    startupLine2 = "Server running at https://0.0.0.0:8443/" ∧
    perRequestLogStream = OutStream.stderr :=
  claim7_startup_output demoEnvOk (by decide)

/-! ### Claim C8 -/

/-- C8: every successful run's last startup step is entering
`serve_forever`, and the serve loop never terminates on its own: however many
transitions it makes, the process is still live — `terminated` is reachable
only by an external signal, not by any loop transition. -/
theorem claim8_serve_forever :
    (∀ env : Env, (run env).failed = none →
      (run env).trace.getLast? = some Step.serveForever) ∧
    (∀ n : Nat, isLive (serveStep^[n] (LoopState.accepting 0)) = true) := by
  constructor
  · intro env h
    simp only [run] at h ⊢
    split_ifs at h ⊢ <;> simp_all
  · intro n
    have key : ∀ s, isLive s = true → isLive (serveStep s) = true := by
      intro s hs
      cases s <;> simp_all [serveStep, isLive]
    induction n with
    | zero => rfl
    | succ k ih =>
      rw [Function.iterate_succ_apply']
      exact key _ ih

/-- C8 witness: a concrete successful run ends its startup in the serve loop,
and after five loop transitions the process is still live. -/
theorem claim8_witness :
    (run demoEnvOk).trace.getLast? = some Step.serveForever ∧
    isLive (serveStep^[5] (LoopState.accepting 0)) = true :=
  ⟨claim8_serve_forever.1 demoEnvOk (by decide), claim8_serve_forever.2 5⟩

/-! ### Claim C9 -/

/-- C9: a run that fails any startup step writes nothing to standard output,
and conversely any run that produces output completed the whole startup
sequence — chdir, bind, TLS context, certificate load, TLS wrap — in order
before the two prints, with the serve loop entered last. -/
theorem claim9_output_after_init (env : Env) :
    ((run env).failed.isSome = true → stdoutOf (run env) = []) ∧
    (stdoutOf (run env) ≠ [] →
      (run env).failed = none ∧
      (run env).trace =
        [Step.chdir (serve_dir env), Step.bind "0.0.0.0" 8443, Step.sslContext,
         Step.loadCertChain (cert_file env) (key_file env), Step.wrapSocket,
         Step.printLine (startupLine1 env), Step.printLine startupLine2,
         Step.serveForever]) := by
  constructor <;> intro h <;>
    (simp only [run, stdoutOf] at h ⊢; split_ifs at h ⊢ <;>
      simp_all [server_address])

/-- C9 witness: a run that dies at the bind produces no output, and a
concrete successful run's trace is the full ordered startup sequence. -/
theorem claim9_witness :
    stdoutOf (run envBadBind) = [] ∧
    ((run demoEnvOk).failed = none ∧
     (run demoEnvOk).trace =
       [Step.chdir (serve_dir demoEnvOk), Step.bind "0.0.0.0" 8443,
        Step.sslContext,
        Step.loadCertChain (cert_file demoEnvOk) (key_file demoEnvOk),
        Step.wrapSocket, Step.printLine (startupLine1 demoEnvOk),
        Step.printLine startupLine2, Step.serveForever]) :=
  ⟨(claim9_output_after_init envBadBind).1 (by decide),
   (claim9_output_after_init demoEnvOk).2 (by decide)⟩

/-! ### Claim C10 -/

/-- C10: arguments beyond the first positional one are never read: two
invocations whose argument vectors agree on the first two entries (script
name and optional serve directory) and share the same working directory,
script location, and call outcomes behave identically — same resolved paths,
same trace, same output — and extra arguments never cause an error. -/
theorem claim10_extra_args_ignored (env env' : Env)
    (hargv : env.argv.take 2 = env'.argv.take 2)
    (hcwd : env.cwd = env'.cwd) (hsf : env.scriptFile = env'.scriptFile)
    (hch : env.chdirOk = env'.chdirOk) (hb : env.bindOk = env'.bindOk)
    (hl : env.loadCertOk = env'.loadCertOk) (hw : env.wrapOk = env'.wrapOk) :
    run env = run env' := by
  have hs := serveDirArg_take_two env.argv env'.argv hargv
  simp only [run, serve_dir, script_dir, cert_file, key_file, startupLine1]
  rw [hs, hcwd, hsf, hch, hb, hl, hw]

/-- C10 witness: adding two junk trailing arguments changes nothing about the
run. -/
theorem claim10_witness : run demoEnvOk = run demoEnvOkExtra :=
  claim10_extra_args_ignored demoEnvOk demoEnvOkExtra
    (by decide) rfl rfl rfl rfl rfl rfl

end HttpsServer
